import Mathlib

/-!
Shallow embedding of the client-side visualization orchestration logic of the
Capstone frontend (React/TypeScript), covering:

- the shared visualization context (src/unnamed/part_000, VisualizationProvider);
- the band catalog panel SpectralBands, its mount-time catalog fetch and
  handleBandSelect (src/web/frontend/src/components/Visualization.tsx);
- the arithmetic panel BandManipulations and its handleCalculate sequence
  (src/web/frontend/src/App.tsx);
- the Visualization display panel and its effect on the shared reference
  (src/web/frontend/src/components/Visualization.tsx).

JavaScript values appearing in response payloads are modelled by JSValue,
with truthiness and property access mirroring JavaScript semantics
(reading a property of undefined or null throws; reading a missing property
of an object yields undefined). Network interaction is modelled by an
environment supplying each request outcome, and each handler returns the
ordered list of requests it issued, the toasts it produced, and the ordered
list of shared-state setter calls it performed.
-/

namespace Capstone

/-- A JavaScript runtime value, as needed for the response payloads. -/
inductive JSValue
  | undefined
  | null
  | str (s : String)
  | num (n : Int)
  | obj (fields : List (String × JSValue))

/-- JavaScript truthiness: undefined, null, the empty string and 0 are falsy. -/
def jsTruthy : JSValue → Bool
  | .undefined => false
  | .null => false
  | .str s => !(s == "")
  | .num n => !(n == 0)
  | .obj _ => true

/-- Association lookup in object fields; a missing key reads as undefined. -/
def lookupField : List (String × JSValue) → String → JSValue
  | [], _ => .undefined
  | (k, v) :: rest, key => if k == key then v else lookupField rest key

/-- Property access on a value known not to be undefined or null
(reading a property of any other primitive yields undefined in JS). -/
def jsGet : JSValue → String → JSValue
  | .obj fields, k => lookupField fields k
  | _, _ => .undefined

/-- A JavaScript exception as observed by the catch blocks: the optional
backend-supplied detail reachable as error.response.data.detail, and the
generic message of the error object. -/
structure JsError where
  responseDetail : Option String
  message : String
deriving DecidableEq

/-- The TypeError raised by reading a property of undefined or null. -/
def typeErrorJs : JsError :=
  { responseDetail := none, message := "Cannot read properties of undefined" }

/-- Property access that can throw: reading a property of undefined or null
raises a TypeError, as in JavaScript. -/
def jsGetOrThrow (v : JSValue) (k : String) : Except JsError JSValue :=
  match v with
  | .undefined => .error typeErrorJs
  | .null => .error typeErrorJs
  | .obj fields => .ok (lookupField fields k)
  | _ => .ok .undefined

/-- Models the expression error.response.data.detail with a fallback to
error.message via the JS or-operator: an absent or empty detail string
falls back to the generic message (App.tsx line 114). -/
def detailOrMessage (e : JsError) : String :=
  match e.responseDetail with
  | some d => if d == "" then e.message else d
  | none => e.message

/-- HTTP method of a request issued by the frontend. -/
inductive Method
  | get
  | post
deriving DecidableEq

/-- Request body as marshalled by the frontend. -/
inductive Payload
  | emptyBody
  | ratioBody (numerator denominator : String)
  | diffBody (band1 band2 : String)
deriving DecidableEq

/-- One HTTP request as issued by axios in the source. -/
structure Request where
  method : Method
  url : String
  body : Payload
deriving DecidableEq

/-- POST http://localhost:8000/api/convert/:band (App.tsx lines 70 and 73,
Visualization.tsx line 131). -/
def convertReq (band : String) : Request :=
  { method := .post, url := "http://localhost:8000/api/convert/" ++ band, body := .emptyBody }

/-- GET http://localhost:8000/api/bands (App.tsx line 77, Visualization.tsx line 111). -/
def bandsReq : Request :=
  { method := .get, url := "http://localhost:8000/api/bands", body := .emptyBody }

/-- GET of a binary image at http://localhost:8000 followed by the
visualization path (Visualization.tsx line 32). -/
def imageReq (path : String) : Request :=
  { method := .get, url := "http://localhost:8000" ++ path, body := .emptyBody }

/-- Severity of a Chakra toast notification. -/
inductive ToastStatus
  | success
  | error
  | warning
deriving DecidableEq

/-- A toast notification: title, status and optional description text. -/
structure Toast where
  title : String
  status : ToastStatus
  description : String
deriving DecidableEq

/-- The visualizationType values of the shared context
(src/unnamed/part_000 line 7). -/
inductive VizType
  | band
  | manipulation
  | none
deriving DecidableEq

/-- The shared session state held by VisualizationProvider
(src/unnamed/part_000 lines 28-30). The url is a JSValue because the
setters are untyped at runtime and can receive undefined. -/
structure SharedState where
  visualizationUrl : JSValue
  visualizationType : VizType
  selectedBand : String

/-- Initial shared state: useState of the empty string, the none type and
the empty string (src/unnamed/part_000 lines 28-30). -/
def initState : SharedState :=
  { visualizationUrl := .str "", visualizationType := .none, selectedBand := "" }

/-- One call to a setter of the shared context. -/
inductive SetterCall
  | setUrl (v : JSValue)
  | setType (t : VizType)
  | setBand (b : String)

/-- Effect of one setter call on the shared state: each is a whole-field
replacement (src/unnamed/part_000 lines 28-30). -/
def applySetter (s : SharedState) : SetterCall → SharedState
  | .setUrl v => { s with visualizationUrl := v }
  | .setType t => { s with visualizationType := t }
  | .setBand b => { s with selectedBand := b }

/-- Effect of a sequence of setter calls, applied in program order. -/
def applySetters (s : SharedState) (calls : List SetterCall) : SharedState :=
  calls.foldl applySetter s

/-- The spec invariant: visualizationKind equals none exactly when the
visualization reference is empty (falsy). -/
def vizInvariant (s : SharedState) : Prop :=
  (s.visualizationType = VizType.none) ↔ (jsTruthy s.visualizationUrl = false)

instance (s : SharedState) : Decidable (vizInvariant s) := by
  unfold vizInvariant
  infer_instance

/-! ## Band catalog panel: SpectralBands -/

/-- Toast produced when the mount-time catalog fetch fails
(Visualization.tsx lines 114-119): title Error fetching bands, status error. -/
def fetchBandsErrToast : Toast :=
  { title := "Error fetching bands", status := .error, description := "" }

/-- Result of the mount-time catalog fetch: requests issued, toasts shown,
and the local band-descriptor mapping afterwards. -/
structure CatalogResult where
  trace : List Request
  toasts : List Toast
  bands : JSValue

/-- fetchBands (Visualization.tsx lines 108-123): one GET of the catalog;
on success the local mapping becomes response.data.data; on failure one
error toast is shown and the mapping keeps its initial empty-object value.
No retry is attempted. The spec calls this operation loadCatalog. -/
def fetchBands (resp : Except JsError JSValue) : CatalogResult :=
  match resp with
  | .ok d => { trace := [bandsReq], toasts := [], bands := jsGet d "data" }
  | .error _ => { trace := [bandsReq], toasts := [fetchBandsErrToast], bands := .obj [] }

/-- Success toast of handleBandSelect (Visualization.tsx lines 141-146). -/
def convertOkToast : Toast :=
  { title := "Band converted successfully", status := .success, description := "" }

/-- Error toast of handleBandSelect (Visualization.tsx lines 147-154). -/
def convertErrToast : Toast :=
  { title := "Error converting band", status := .error, description := "" }

/-- Result of one handler run over the shared state: requests issued in
order, toasts produced in order, and the shared-context setter calls
performed in order. The resulting shared state is applySetters of the
state before the run. -/
structure HandlerResult where
  trace : List Request
  toasts : List Toast
  setters : List SetterCall

/-- handleBandSelect (Visualization.tsx lines 125-155). The shared
selected band is set before the conversion request is awaited
(line 128); on conversion success the visualization type is set to band
and then the url to /api/visualize/:band (lines 135-136) and a success
toast shows; on conversion failure only the error toast shows. -/
def handleBandSelect (bandName : String) (convertResp : Except JsError JSValue) :
    HandlerResult :=
  match convertResp with
  | .error _ =>
      { trace := [convertReq bandName]
        toasts := [convertErrToast]
        setters := [.setBand bandName] }
  | .ok _ =>
      { trace := [convertReq bandName]
        toasts := [convertOkToast]
        setters := [.setBand bandName, .setType VizType.band,
                    .setUrl (.str ("/api/visualize/" ++ bandName))] }

/-! ## Band arithmetic panel: BandManipulations -/

/-- The two operations of the select control (App.tsx lines 130-138). -/
inductive OpKind
  | ratioOp
  | diffOp
deriving DecidableEq

/-- The manipulation request (App.tsx lines 80-89): endpoint and payload
both chosen by the operation, ratio sending numerator and denominator
in the order first band, second band. -/
def manipReq (op : OpKind) (band1 band2 : String) : Request :=
  match op with
  | .ratioOp =>
      { method := .post, url := "http://localhost:8000/api/manipulate/ratio"
        body := .ratioBody band1 band2 }
  | .diffOp =>
      { method := .post, url := "http://localhost:8000/api/manipulate/difference"
        body := .diffBody band1 band2 }

/-- The full request sequence of a handleCalculate run that reaches the
manipulation call (App.tsx lines 70, 73, 77, 89). -/
def fullCalcTrace (op : OpKind) (band1 band2 : String) : List Request :=
  [convertReq band1, convertReq band2, bandsReq, manipReq op band1 band2]

/-- Validation warning toast (App.tsx lines 57-62). -/
def bandsWarnToast : Toast :=
  { title := "Please select both bands", status := .warning, description := "" }

/-- Success toast of handleCalculate (App.tsx lines 101-106). -/
def successCalcToast : Toast :=
  { title := "Calculation completed", status := .success, description := "" }

/-- Error toast of the catch block (App.tsx lines 112-118): the description
is error.response.data.detail when present and non-falsy, else the
generic error.message. -/
def errorCalcToast (e : JsError) : Toast :=
  { title := "Error performing calculation", status := .error
    description := detailOrMessage e }

/-- The Error thrown when the manipulation response lacks a success status
(App.tsx line 108). -/
def formatError : JsError :=
  { responseDetail := none
    message := "Manipulation completed but response format is unexpected" }

/-- Checks response.data.status triple-equals the string success. -/
def isSuccessStatus (v : JSValue) : Bool :=
  match v with
  | .str s => s == "success"
  | _ => false

/-- Backend behaviour for one handleCalculate run: the outcome of each of
the four requests, in program order. An ok value is the response body. -/
structure CalcEnv where
  convert1Resp : Except JsError JSValue
  convert2Resp : Except JsError JSValue
  bandsResp : Except JsError JSValue
  manipResp : Except JsError JSValue

/-- handleCalculate (App.tsx lines 55-122). Validation first (empty-string
operands are falsy); then the two conversions, the catalog re-check and
the manipulation call strictly in order, each await aborting the rest on
failure into the shared catch block; on a response whose truthy body has
status success, the visualization path read from response.data.data
(a throwing read when that is undefined or null) is published by setting
the url and then the type; any caught error produces one error toast and
no setter call. -/
def handleCalculate (op : OpKind) (band1 band2 : String) (env : CalcEnv) :
    HandlerResult :=
  if band1 == "" || band2 == "" then
    { trace := [], toasts := [bandsWarnToast], setters := [] }
  else
    match env.convert1Resp with
    | .error e =>
        { trace := [convertReq band1], toasts := [errorCalcToast e], setters := [] }
    | .ok _ =>
      match env.convert2Resp with
      | .error e =>
          { trace := [convertReq band1, convertReq band2]
            toasts := [errorCalcToast e], setters := [] }
      | .ok _ =>
        match env.bandsResp with
        | .error e =>
            { trace := [convertReq band1, convertReq band2, bandsReq]
              toasts := [errorCalcToast e], setters := [] }
        | .ok _ =>
          match env.manipResp with
          | .error e =>
              { trace := fullCalcTrace op band1 band2
                toasts := [errorCalcToast e], setters := [] }
          | .ok data =>
            if jsTruthy data && isSuccessStatus (jsGet data "status") then
              match jsGetOrThrow (jsGet data "data") "visualization" with
              | .error e =>
                  { trace := fullCalcTrace op band1 band2
                    toasts := [errorCalcToast e], setters := [] }
              | .ok path =>
                  { trace := fullCalcTrace op band1 band2
                    toasts := [successCalcToast]
                    setters := [.setUrl path, .setType VizType.manipulation] }
            else
              { trace := fullCalcTrace op band1 band2
                toasts := [errorCalcToast formatError], setters := [] }

/-- The first failure of a handleCalculate run past validation, in program
order: the error of the first failing await, the TypeError of the
visualization-path read, or the thrown format Error; none when the run
publishes. -/
def firstFailure (env : CalcEnv) : Option JsError :=
  match env.convert1Resp with
  | .error e => some e
  | .ok _ =>
    match env.convert2Resp with
    | .error e => some e
    | .ok _ =>
      match env.bandsResp with
      | .error e => some e
      | .ok _ =>
        match env.manipResp with
        | .error e => some e
        | .ok data =>
          if jsTruthy data && isSuccessStatus (jsGet data "status") then
            match jsGetOrThrow (jsGet data "data") "visualization" with
            | .error e => some e
            | .ok _ => none
          else some formatError

/-! ## Visualization display panel -/

/-- Local state of the Visualization component (Visualization.tsx lines 8-10). -/
structure PanelState where
  imageUrl : String
  loading : Bool
  error : String
deriving DecidableEq

/-- Initial local state: empty image url, not loading, no error. -/
def initPanel : PanelState :=
  { imageUrl := "", loading := false, error := "" }

/-- The object URL created by URL.createObjectURL for the blob fetched from
a given path (Visualization.tsx line 36); always a blob: url. -/
def blobFor (path : String) : String := "blob:" ++ path

/-- Events driving the Visualization component: the effect firing on a
context url change, and the resolution of an in-flight image fetch. -/
inductive PanelEvent
  | ctxChange (url : String)
  | fetchSuccess (path : String)
  | fetchFailure (path : String)

/-- One event step of the Visualization component, returning the next local
state and the requests issued. The effect (lines 12-23) ignores a falsy
url, adopts a blob: url directly, and otherwise starts loadImageFromApi
(lines 25-44): loading set, error cleared, one binary GET issued. A
resolution applies setImageUrl with the object url (success) or sets the
error text (failure), clearing loading either way; no staleness guard. -/
def panelStep (s : PanelState) : PanelEvent → (PanelState × List Request)
  | .ctxChange url =>
      if url == "" then (s, [])
      else if url.startsWith "blob:" then ({ s with imageUrl := url }, [])
      else ({ s with loading := true, error := "" }, [imageReq url])
  | .fetchSuccess path => ({ s with imageUrl := blobFor path, loading := false }, [])
  | .fetchFailure _ =>
      ({ s with error := "Error loading visualization", loading := false }, [])

/-- Running the Visualization component over a sequence of events,
accumulating the requests issued in order. -/
def runPanel (s : PanelState) : List PanelEvent → (PanelState × List Request)
  | [] => (s, [])
  | e :: rest =>
      let out := panelStep s e
      let outRest := runPanel out.1 rest
      (outRest.1, out.2 ++ outRest.2)

/-! ## Auxiliary predicates and concrete inputs used in the theorems -/

/-- Whether a request is the ratio-endpoint call, recognised by its payload. -/
def isRatioCall (r : Request) : Bool :=
  match r.body with
  | .ratioBody _ _ => true
  | _ => false

/-- Every url published by a setter sequence is truthy. -/
def settersUrlsTruthy : List SetterCall → Bool
  | [] => true
  | .setUrl v :: rest => jsTruthy v && settersUrlsTruthy rest
  | _ :: rest => settersUrlsTruthy rest

/-- A plain transport failure, as thrown by axios with no response body. -/
def netErr : JsError := { responseDetail := none, message := "Network Error" }

/-- A backend environment in which every call succeeds and the manipulation
response is well formed. -/
def envManipOk : CalcEnv :=
  { convert1Resp := .ok (.obj []), convert2Resp := .ok (.obj [])
    bandsResp := .ok (.obj [])
    manipResp := .ok (.obj [("status", .str "success"),
                            ("data", .obj [("visualization", .str "/viz/result.png")])]) }

/-- A backend environment whose first conversion call fails with a
backend-supplied detail message. -/
def envConvert1Fails : CalcEnv :=
  { convert1Resp := .error { responseDetail := some "Band file not found", message := "Request failed with status code 500" }
    convert2Resp := .ok (.obj []), bandsResp := .ok (.obj [])
    manipResp := .ok (.obj []) }

/-- A backend environment whose manipulation response reports success but
carries a data object with no visualization field. -/
def envMissingViz : CalcEnv :=
  { convert1Resp := .ok (.obj []), convert2Resp := .ok (.obj [])
    bandsResp := .ok (.obj [])
    manipResp := .ok (.obj [("status", .str "success"), ("data", .obj [])]) }

/-- A backend environment whose manipulation response reports success but
has no data payload at all. -/
def envMissingData : CalcEnv :=
  { convert1Resp := .ok (.obj []), convert2Resp := .ok (.obj [])
    bandsResp := .ok (.obj [])
    manipResp := .ok (.obj [("status", .str "success")]) }

/-! ## Helper lemmas -/

/-- Appending to a non-empty string yields a non-empty string. -/
theorem append_left_ne_empty (a b : String) (h : a ≠ "") : a ++ b ≠ "" := by
  intro hab
  apply h
  have hdata := congrArg String.data hab
  rw [String.data_append] at hdata
  have ha : a.data = [] := (List.append_eq_nil.mp hdata).1
  cases a with
  | mk d => cases ha; rfl

/-- A single panel event never empties a non-empty local image url. -/
theorem panelStep_preserves_image (s : PanelState) (e : PanelEvent)
    (h : s.imageUrl ≠ "") : (panelStep s e).1.imageUrl ≠ "" := by
  cases e with
  | ctxChange url =>
    by_cases hu : url == ""
    · simpa [panelStep, hu] using h
    · by_cases hb : url.startsWith "blob:"
      · simp only [panelStep, hu, Bool.false_eq_true, if_false, hb, if_true]
        simpa using hu
      · simpa [panelStep, hu, hb] using h
  | fetchSuccess path =>
    simp only [panelStep]
    exact append_left_ne_empty "blob:" path (by decide)
  | fetchFailure path => simpa [panelStep] using h

/-! ## Claim theorems -/

/-- C4: invoking the arithmetic action with either operand band identifier
unset (the empty string) issues no network request, produces exactly one
warning notification, and performs no setter call, so the shared state is
not modified. -/
theorem calc_unset_operand (op : OpKind) (band1 band2 : String) (env : CalcEnv)
    (h : band1 = "" ∨ band2 = "") :
    (handleCalculate op band1 band2 env).trace = [] ∧
    (handleCalculate op band1 band2 env).toasts = [bandsWarnToast] ∧
    bandsWarnToast.status = ToastStatus.warning ∧
    (handleCalculate op band1 band2 env).setters = [] ∧
    applySetters initState (handleCalculate op band1 band2 env).setters = initState := by
  have hcond : (band1 == "" || band2 == "") = true := by
    cases h with
    | inl h1 => subst h1; simp
    | inr h2 => subst h2; simp
  unfold handleCalculate
  rw [hcond]
  exact ⟨rfl, rfl, rfl, rfl, rfl⟩

/-- C4 witness: the arithmetic action with the first operand unset. -/
theorem calc_unset_operand_witness :
    ((handleCalculate OpKind.ratioOp "" "IMG_SWIR" envManipOk).trace = [] ∧
     (handleCalculate OpKind.ratioOp "" "IMG_SWIR" envManipOk).toasts = [bandsWarnToast] ∧
     bandsWarnToast.status = ToastStatus.warning ∧
     (handleCalculate OpKind.ratioOp "" "IMG_SWIR" envManipOk).setters = [] ∧
     applySetters initState (handleCalculate OpKind.ratioOp "" "IMG_SWIR" envManipOk).setters
       = initState) :=
  calc_unset_operand OpKind.ratioOp "" "IMG_SWIR" envManipOk (Or.inl rfl)

/-- C3: a successful ratio computation with first operand band1 and second
operand band2 issues exactly the trace convert band1, convert band2,
catalog re-check, ratio call, in that order; the ratio endpoint is called
exactly once, with payload numerator band1 and denominator band2. -/
theorem calc_ratio_success_trace (band1 band2 : String) (env : CalcEnv)
    (h1 : band1 ≠ "") (h2 : band2 ≠ "") (hs : firstFailure env = none) :
    (handleCalculate OpKind.ratioOp band1 band2 env).trace =
      [convertReq band1, convertReq band2, bandsReq, manipReq OpKind.ratioOp band1 band2] ∧
    manipReq OpKind.ratioOp band1 band2 =
      { method := Method.post, url := "http://localhost:8000/api/manipulate/ratio"
        body := Payload.ratioBody band1 band2 } ∧
    ((handleCalculate OpKind.ratioOp band1 band2 env).trace.countP isRatioCall) = 1 := by
  have hcond : (band1 == "" || band2 == "") = false := by simp [h1, h2]
  obtain ⟨c1, c2, cb, cm⟩ := env
  cases c1 with
  | error e => simp [firstFailure] at hs
  | ok v1 =>
    cases c2 with
    | error e => simp [firstFailure] at hs
    | ok v2 =>
      cases cb with
      | error e => simp [firstFailure] at hs
      | ok vb =>
        cases cm with
        | error e => simp [firstFailure] at hs
        | ok data =>
          by_cases hd : (jsTruthy data && isSuccessStatus (jsGet data "status")) = true
          · cases hj : jsGetOrThrow (jsGet data "data") "visualization" with
            | error e => simp [firstFailure, hd, hj] at hs
            | ok path =>
              refine ⟨?_, rfl, ?_⟩ <;>
                simp [handleCalculate, hcond, hd, hj, fullCalcTrace, List.countP_cons,
                  isRatioCall, convertReq, bandsReq, manipReq]
          · simp [firstFailure, hd] at hs

/-- C3 witness: a concrete successful ratio run. -/
theorem calc_ratio_success_trace_witness :
    ("IMG_VIS" : String) ≠ "" ∧ ("IMG_SWIR" : String) ≠ "" ∧
    firstFailure envManipOk = none ∧
    ((handleCalculate OpKind.ratioOp "IMG_VIS" "IMG_SWIR" envManipOk).trace =
      [convertReq "IMG_VIS", convertReq "IMG_SWIR", bandsReq,
       manipReq OpKind.ratioOp "IMG_VIS" "IMG_SWIR"] ∧
     manipReq OpKind.ratioOp "IMG_VIS" "IMG_SWIR" =
      { method := Method.post, url := "http://localhost:8000/api/manipulate/ratio"
        body := Payload.ratioBody "IMG_VIS" "IMG_SWIR" } ∧
     ((handleCalculate OpKind.ratioOp "IMG_VIS" "IMG_SWIR" envManipOk).trace.countP
        isRatioCall) = 1) :=
  ⟨by decide, by decide, rfl,
   calc_ratio_success_trace "IMG_VIS" "IMG_SWIR" envManipOk (by decide) (by decide) rfl⟩

/-- C5: any handleCalculate run past validation that ends with a
non-success status or an exception at any step performs no setter call
(the shared state is unchanged), surfaces exactly one error toast whose
description is the backend-supplied detail when present and the generic
exception message otherwise, and issues no request beyond the failing
step: its trace is a prefix of the full four-request sequence. -/
theorem calc_failure_atomic (op : OpKind) (band1 band2 : String) (env : CalcEnv)
    (e : JsError) (h1 : band1 ≠ "") (h2 : band2 ≠ "") (hf : firstFailure env = some e) :
    (handleCalculate op band1 band2 env).setters = [] ∧
    (∀ s, applySetters s (handleCalculate op band1 band2 env).setters = s) ∧
    (handleCalculate op band1 band2 env).toasts = [errorCalcToast e] ∧
    (errorCalcToast e).status = ToastStatus.error ∧
    (errorCalcToast e).description = detailOrMessage e ∧
    ∃ rest, fullCalcTrace op band1 band2 =
      (handleCalculate op band1 band2 env).trace ++ rest := by
  have hcond : (band1 == "" || band2 == "") = false := by simp [h1, h2]
  obtain ⟨c1, c2, cb, cm⟩ := env
  cases c1 with
  | error e1 =>
    simp only [firstFailure, Option.some_inj] at hf
    subst hf
    refine ⟨?_, ?_, ?_, rfl, rfl, ?_⟩ <;>
      simp [handleCalculate, hcond, applySetters, fullCalcTrace]
  | ok v1 =>
    cases c2 with
    | error e2 =>
      simp only [firstFailure, Option.some_inj] at hf
      subst hf
      refine ⟨?_, ?_, ?_, rfl, rfl, ?_⟩ <;>
        simp [handleCalculate, hcond, applySetters, fullCalcTrace]
    | ok v2 =>
      cases cb with
      | error eb =>
        simp only [firstFailure, Option.some_inj] at hf
        subst hf
        refine ⟨?_, ?_, ?_, rfl, rfl, ?_⟩ <;>
          simp [handleCalculate, hcond, applySetters, fullCalcTrace]
      | ok vb =>
        cases cm with
        | error em =>
          simp only [firstFailure, Option.some_inj] at hf
          subst hf
          refine ⟨?_, ?_, ?_, rfl, rfl, ?_⟩ <;>
            simp [handleCalculate, hcond, applySetters, fullCalcTrace]
        | ok data =>
          by_cases hd : (jsTruthy data && isSuccessStatus (jsGet data "status")) = true
          · cases hj : jsGetOrThrow (jsGet data "data") "visualization" with
            | error ev =>
              simp only [firstFailure, hd, if_true, hj, Option.some_inj] at hf
              subst hf
              refine ⟨?_, ?_, ?_, rfl, rfl, ?_⟩ <;>
                simp [handleCalculate, hcond, hd, hj, applySetters, fullCalcTrace]
            | ok path =>
              simp [firstFailure, hd, hj] at hf
          · simp only [firstFailure] at hf
            rw [if_neg hd, Option.some_inj] at hf
            subst hf
            refine ⟨?_, ?_, ?_, rfl, rfl, ?_⟩ <;>
              simp [handleCalculate, hcond, hd, applySetters, fullCalcTrace]

/-- C5 witness: a concrete run whose first conversion fails with a
backend-supplied detail. -/
theorem calc_failure_atomic_witness :
    ("IMG_VIS" : String) ≠ "" ∧ ("IMG_SWIR" : String) ≠ "" ∧
    firstFailure envConvert1Fails =
      some { responseDetail := some "Band file not found"
             message := "Request failed with status code 500" } ∧
    ((handleCalculate OpKind.ratioOp "IMG_VIS" "IMG_SWIR" envConvert1Fails).setters = [] ∧
     (∀ s, applySetters s
        (handleCalculate OpKind.ratioOp "IMG_VIS" "IMG_SWIR" envConvert1Fails).setters = s) ∧
     (handleCalculate OpKind.ratioOp "IMG_VIS" "IMG_SWIR" envConvert1Fails).toasts =
       [errorCalcToast { responseDetail := some "Band file not found"
                         message := "Request failed with status code 500" }] ∧
     (errorCalcToast { responseDetail := some "Band file not found"
                       message := "Request failed with status code 500" }).status
        = ToastStatus.error ∧
     (errorCalcToast { responseDetail := some "Band file not found"
                       message := "Request failed with status code 500" }).description
        = detailOrMessage { responseDetail := some "Band file not found"
                            message := "Request failed with status code 500" } ∧
     ∃ rest, fullCalcTrace OpKind.ratioOp "IMG_VIS" "IMG_SWIR" =
       (handleCalculate OpKind.ratioOp "IMG_VIS" "IMG_SWIR" envConvert1Fails).trace ++ rest) :=
  ⟨by decide, by decide, rfl,
   calc_failure_atomic OpKind.ratioOp "IMG_VIS" "IMG_SWIR" envConvert1Fails
     { responseDetail := some "Band file not found"
       message := "Request failed with status code 500" }
     (by decide) (by decide) rfl⟩

/-- C1 counterexample: starting from the initial shared state, selecting
the band IMG_VIS while the conversion request fails changes the shared
selected band id, so not all shared session-state fields are unchanged. -/
theorem bandSelect_failure_changes_selectedBand :
    (applySetters initState
        (handleBandSelect "IMG_VIS" (Except.error netErr)).setters).selectedBand
      ≠ initState.selectedBand := by
  decide

/-- C1 amended: when the conversion request of handleBandSelect fails, an
error notification is surfaced and the shared visualization reference and
kind are unchanged; the shared selected band id, however, has already been
set to the selected id before the request, so it changes whenever the id
differs from the previous selection. -/
theorem bandSelect_failure_behaviour (b : String) (e : JsError) :
    (handleBandSelect b (Except.error e)).toasts = [convertErrToast] ∧
    convertErrToast.status = ToastStatus.error ∧
    (handleBandSelect b (Except.error e)).trace = [convertReq b] ∧
    (handleBandSelect b (Except.error e)).setters = [SetterCall.setBand b] ∧
    ∀ s, (applySetters s (handleBandSelect b (Except.error e)).setters).visualizationUrl
            = s.visualizationUrl ∧
         (applySetters s (handleBandSelect b (Except.error e)).setters).visualizationType
            = s.visualizationType ∧
         (applySetters s (handleBandSelect b (Except.error e)).setters).selectedBand = b :=
  ⟨rfl, rfl, rfl, rfl, fun _ => ⟨rfl, rfl, rfl⟩⟩

/-- C2 counterexample: the state reached between the two consecutive setter
calls of handleBandSelect (type set to band, url still empty) is produced
by a successful band selection from the initial state and violates the
invariant. -/
theorem vizInvariant_intermediate_violation :
    vizInvariant initState ∧
    (List.scanl applySetter initState
        (handleBandSelect "IMG_VIS" (Except.ok (JSValue.obj []))).setters).get? 2 =
      some { visualizationUrl := JSValue.str "", visualizationType := VizType.band
             selectedBand := "IMG_VIS" } ∧
    ¬ vizInvariant { visualizationUrl := JSValue.str "", visualizationType := VizType.band
                     selectedBand := "IMG_VIS" } :=
  ⟨by decide, rfl, by decide⟩

/-- C2 amended: the invariant that the visualization kind is none exactly
when the reference is empty holds in the initial state and is preserved by
every completed handler run, provided every url the arithmetic handler
publishes is truthy; it can be violated transiently between the two
consecutive setter calls of a single handler. -/
theorem vizInvariant_quiescent (s : SharedState) (b : String)
    (conv : Except JsError JSValue) (op : OpKind) (b1 b2 : String) (env : CalcEnv)
    (hs : vizInvariant s)
    (hp : settersUrlsTruthy (handleCalculate op b1 b2 env).setters = true) :
    vizInvariant initState ∧
    vizInvariant (applySetters s (handleBandSelect b conv).setters) ∧
    vizInvariant (applySetters s (handleCalculate op b1 b2 env).setters) := by
  refine ⟨by decide, ?_, ?_⟩
  · cases conv with
    | error e => exact hs
    | ok v =>
      have hurl : ("/api/visualize/" ++ b) ≠ "" :=
        append_left_ne_empty "/api/visualize/" b (by decide)
      simp [handleBandSelect, applySetters, applySetter, vizInvariant, jsTruthy, hurl]
  · by_cases hcond : (b1 == "" || b2 == "") = true
    · simp only [handleCalculate, hcond, if_true]
      exact hs
    · obtain ⟨c1, c2, cb, cm⟩ := env
      cases c1 with
      | error e => simpa [handleCalculate, hcond] using hs
      | ok v1 =>
        cases c2 with
        | error e => simpa [handleCalculate, hcond] using hs
        | ok v2 =>
          cases cb with
          | error e => simpa [handleCalculate, hcond] using hs
          | ok vb =>
            cases cm with
            | error e => simpa [handleCalculate, hcond] using hs
            | ok data =>
              by_cases hd : (jsTruthy data && isSuccessStatus (jsGet data "status")) = true
              · cases hj : jsGetOrThrow (jsGet data "data") "visualization" with
                | error ev => simpa [handleCalculate, hcond, hd, hj] using hs
                | ok path =>
                  simp only [handleCalculate, hcond, hd, if_true, hj,
                    Bool.or_eq_true, Bool.false_eq_true, if_false] at hp ⊢
                  simp only [settersUrlsTruthy, Bool.and_eq_true] at hp
                  simp [applySetters, applySetter, vizInvariant, hp.1]
              · simpa [handleCalculate, hcond, hd] using hs

/-- C2 amended witness: the invariant after a concrete successful band
selection from the initial state. -/
theorem vizInvariant_quiescent_witness :
    vizInvariant initState ∧
    vizInvariant (applySetters initState
      (handleBandSelect "IMG_VIS" (Except.ok (JSValue.obj []))).setters) ∧
    vizInvariant (applySetters initState
      (handleCalculate OpKind.ratioOp "IMG_VIS" "IMG_SWIR" envManipOk).setters) :=
  vizInvariant_quiescent initState "IMG_VIS" (Except.ok (JSValue.obj []))
    OpKind.ratioOp "IMG_VIS" "IMG_SWIR" envManipOk (by decide) (by decide)

/-- C9 counterexample: a manipulation response with status success and a
data object lacking the visualization field does not raise: the shared
url is written as undefined, the kind is set to manipulation, and a
success toast is shown instead of an error notification. -/
theorem successStatus_missingViz_writesState :
    (handleCalculate OpKind.ratioOp "IMG_VIS" "IMG_SWIR" envMissingViz).toasts
      = [successCalcToast] ∧
    successCalcToast.status = ToastStatus.success ∧
    (handleCalculate OpKind.ratioOp "IMG_VIS" "IMG_SWIR" envMissingViz).setters
      = [SetterCall.setUrl JSValue.undefined, SetterCall.setType VizType.manipulation] ∧
    (applySetters initState
        (handleCalculate OpKind.ratioOp "IMG_VIS" "IMG_SWIR" envMissingViz).setters).visualizationType
      = VizType.manipulation ∧
    initState.visualizationType ≠ VizType.manipulation :=
  ⟨rfl, rfl, rfl, rfl, by decide⟩

/-- C9 amended: on a success-status manipulation response, when the nested
data payload itself is absent (undefined or null) the handler raises on
the property read before any setter call, so an error toast is surfaced
and the shared state is unchanged; but when the data payload is present as
an object merely lacking the visualization field, no exception is raised:
the shared visualization reference is set to undefined, the kind to
manipulation, and a success toast is shown. -/
theorem successStatus_payload_cases (op : OpKind) (b1 b2 : String)
    (v1 v2 vb data : JSValue) (h1 : b1 ≠ "") (h2 : b2 ≠ "")
    (htr : jsTruthy data = true) (hst : isSuccessStatus (jsGet data "status") = true) :
    ((jsGet data "data" = JSValue.undefined ∨ jsGet data "data" = JSValue.null) →
      (handleCalculate op b1 b2 ⟨.ok v1, .ok v2, .ok vb, .ok data⟩).setters = [] ∧
      (handleCalculate op b1 b2 ⟨.ok v1, .ok v2, .ok vb, .ok data⟩).toasts
        = [errorCalcToast typeErrorJs]) ∧
    (∀ fields, jsGet data "data" = JSValue.obj fields →
      lookupField fields "visualization" = JSValue.undefined →
      (handleCalculate op b1 b2 ⟨.ok v1, .ok v2, .ok vb, .ok data⟩).setters
        = [SetterCall.setUrl JSValue.undefined, SetterCall.setType VizType.manipulation] ∧
      (handleCalculate op b1 b2 ⟨.ok v1, .ok v2, .ok vb, .ok data⟩).toasts
        = [successCalcToast]) := by
  have hcond : (b1 == "" || b2 == "") = false := by simp [h1, h2]
  constructor
  · intro habsent
    cases habsent with
    | inl hu => constructor <;> simp [handleCalculate, hcond, htr, hst, jsGetOrThrow, hu]
    | inr hn => constructor <;> simp [handleCalculate, hcond, htr, hst, jsGetOrThrow, hn]
  · intro fields hobj hmiss
    constructor <;> simp [handleCalculate, hcond, htr, hst, jsGetOrThrow, hobj, hmiss]

/-- C9 amended witness: concrete runs for the absent payload and for the
object payload lacking the visualization field. -/
theorem successStatus_payload_cases_witness :
    ((handleCalculate OpKind.ratioOp "IMG_VIS" "IMG_SWIR" envMissingData).setters = [] ∧
     (handleCalculate OpKind.ratioOp "IMG_VIS" "IMG_SWIR" envMissingData).toasts
       = [errorCalcToast typeErrorJs]) ∧
    ((handleCalculate OpKind.ratioOp "IMG_VIS" "IMG_SWIR" envMissingViz).setters
       = [SetterCall.setUrl JSValue.undefined, SetterCall.setType VizType.manipulation] ∧
     (handleCalculate OpKind.ratioOp "IMG_VIS" "IMG_SWIR" envMissingViz).toasts
       = [successCalcToast]) :=
  ⟨(successStatus_payload_cases OpKind.ratioOp "IMG_VIS" "IMG_SWIR"
      (JSValue.obj []) (JSValue.obj []) (JSValue.obj [])
      (JSValue.obj [("status", JSValue.str "success")])
      (by decide) (by decide) rfl rfl).1 (Or.inl rfl),
   (successStatus_payload_cases OpKind.ratioOp "IMG_VIS" "IMG_SWIR"
      (JSValue.obj []) (JSValue.obj []) (JSValue.obj [])
      (JSValue.obj [("status", JSValue.str "success"), ("data", JSValue.obj [])])
      (by decide) (by decide) rfl rfl).2 [] rfl rfl⟩

/-- C6: for a non-empty shared visualization reference observed by the
display panel, a blob: url is rendered directly with no request; any other
reference causes exactly one binary fetch of that path against the
backend, whose resolution renders the object url created from the
response. -/
theorem display_reference_rendering (s : PanelState) (url : String) (h : url ≠ "") :
    (url.startsWith "blob:" = true →
      panelStep s (.ctxChange url) = ({ s with imageUrl := url }, [])) ∧
    (url.startsWith "blob:" = false →
      (panelStep s (.ctxChange url)).2 = [imageReq url] ∧
      (runPanel s [.ctxChange url, .fetchSuccess url]).2 = [imageReq url] ∧
      (runPanel s [.ctxChange url, .fetchSuccess url]).1.imageUrl = blobFor url) := by
  have hne : (url == "") = false := by simp [h]
  constructor
  · intro hb
    simp [panelStep, hne, hb]
  · intro hb
    refine ⟨?_, ?_, ?_⟩ <;> simp [runPanel, panelStep, hne, hb]

/-- C6 witness: a remote path reference and its resolution. -/
theorem display_reference_rendering_witness :
    ("/api/visualize/IMG_VIS" : String) ≠ "" ∧
    (("/api/visualize/IMG_VIS" : String).startsWith "blob:" = true →
      panelStep initPanel (.ctxChange "/api/visualize/IMG_VIS")
        = ({ initPanel with imageUrl := "/api/visualize/IMG_VIS" }, [])) ∧
    (("/api/visualize/IMG_VIS" : String).startsWith "blob:" = false →
      (panelStep initPanel (.ctxChange "/api/visualize/IMG_VIS")).2
        = [imageReq "/api/visualize/IMG_VIS"] ∧
      (runPanel initPanel [.ctxChange "/api/visualize/IMG_VIS",
          .fetchSuccess "/api/visualize/IMG_VIS"]).2 = [imageReq "/api/visualize/IMG_VIS"] ∧
      (runPanel initPanel [.ctxChange "/api/visualize/IMG_VIS",
          .fetchSuccess "/api/visualize/IMG_VIS"]).1.imageUrl
        = blobFor "/api/visualize/IMG_VIS") :=
  ⟨by decide, (display_reference_rendering initPanel "/api/visualize/IMG_VIS" (by decide)).1,
   (display_reference_rendering initPanel "/api/visualize/IMG_VIS" (by decide)).2⟩

/-- C7 counterexample: the reference moves from empty to the remote path
slash-x and then slash-y before either fetch resolves; both fetches are
issued, and when the fetch for slash-x resolves after the fetch for
slash-y the panel finally renders the image of slash-x, not slash-y. -/
theorem staleFetch_overwrites_newer :
    (runPanel initPanel [.ctxChange "/x", .ctxChange "/y",
        .fetchSuccess "/y", .fetchSuccess "/x"]).2 = [imageReq "/x", imageReq "/y"] ∧
    (runPanel initPanel [.ctxChange "/x", .ctxChange "/y",
        .fetchSuccess "/y", .fetchSuccess "/x"]).1.imageUrl = blobFor "/x" ∧
    blobFor "/x" ≠ blobFor "/y" :=
  ⟨rfl, rfl, by decide⟩

/-- C7 amended: with no staleness guard in the panel, the finally rendered
image corresponds to whichever fetch resolves last: it is the image of
slash-y when the fetch for slash-y resolves last, and the stale image of
slash-x when the fetch for slash-x resolves last. -/
theorem display_last_resolution_wins :
    (runPanel initPanel [.ctxChange "/x", .ctxChange "/y",
        .fetchSuccess "/x", .fetchSuccess "/y"]).1.imageUrl = blobFor "/y" ∧
    (runPanel initPanel [.ctxChange "/x", .ctxChange "/y",
        .fetchSuccess "/y", .fetchSuccess "/x"]).1.imageUrl = blobFor "/x" :=
  ⟨rfl, rfl⟩

/-- C10: an update setting the shared reference to the empty string is
ignored by the display panel, and once the local image url is non-empty no
sequence of panel events ever resets it to empty. -/
theorem display_image_persistence (s : PanelState) (events : List PanelEvent)
    (h : s.imageUrl ≠ "") :
    (∀ t : PanelState, panelStep t (.ctxChange "") = (t, [])) ∧
    (runPanel s events).1.imageUrl ≠ "" := by
  refine ⟨fun t => rfl, ?_⟩
  induction events generalizing s with
  | nil => exact h
  | cons e rest ih =>
    simp only [runPanel]
    exact ih (panelStep s e).1 (panelStep_preserves_image s e h)

/-- C10 witness: a panel showing an image receives an empty reference and
keeps its image. -/
theorem display_image_persistence_witness :
    ({ imageUrl := "blob:abc", loading := false, error := "" } : PanelState).imageUrl ≠ "" ∧
    (runPanel { imageUrl := "blob:abc", loading := false, error := "" }
        [PanelEvent.ctxChange ""]).1.imageUrl ≠ "" :=
  ⟨by decide,
   (display_image_persistence { imageUrl := "blob:abc", loading := false, error := "" }
      [PanelEvent.ctxChange ""] (by decide)).2⟩

/-- C8 counterexample: when the catalog request fails, the single
notification surfaced has status error, not warning. -/
theorem catalog_failure_toast_is_error :
    (fetchBands (Except.error netErr)).toasts = [fetchBandsErrToast] ∧
    fetchBandsErrToast.status = ToastStatus.error ∧
    ToastStatus.error ≠ ToastStatus.warning := by
  decide

/-- C8 amended: a failing catalog request issues exactly one request (no
retry), surfaces exactly one transient notification, of status error,
and leaves the band-descriptor mapping at its initial empty value. -/
theorem catalog_failure_behaviour (e : JsError) :
    (fetchBands (Except.error e)).trace = [bandsReq] ∧
    (fetchBands (Except.error e)).toasts = [fetchBandsErrToast] ∧
    fetchBandsErrToast.status = ToastStatus.error ∧
    (fetchBands (Except.error e)).bands = JSValue.obj [] :=
  ⟨rfl, rfl, rfl, rfl⟩

end Capstone
